import Mathlib

/-!
Shallow embedding of the streambed video-flow system (src/flow.rs, src/main.rs).

Machine integers (u8/u16/u32/u64) are modelled as `Nat`; where the Rust code can
overflow a `u32` multiplication or addition, the embedding applies `% 2^32`
explicitly.  Fallible Rust functions returning `Result<T, Error>` are modelled
as `Except Error T`.  The gstreamer framework boundary (element creation,
linking, bus watching) is abstracted: `make_element` always succeeds and a
pipeline is represented by the ordered list of element factory names added to
it (sink first, matching `FlowBuilder::add_elements`).
-/

namespace Streambed

/-- Number of times to check PTS before giving up (`PTS_CHECK_TRIES`). -/
def PTS_CHECK_TRIES : Nat := 5

/-- 2^32, the wrap-around modulus of Rust `u32` arithmetic. -/
def U32 : Nat := 2 ^ 32

/-- Streambed errors (src/error.rs).  Variants whose payloads come from foreign
error types carry no payload here. -/
inductive Error where
  | MissingElement (s : String)
  | InvalidProperty (s : String)
  | ConnectSignal (s : String)
  | PipelineAdd
  | InvalidCrop
  | ParseAddr
  | ParseInt
  | TryFromInt
  | InvalidUtf8
  | Io
  | Muon
  | Other (s : String)
deriving DecidableEq, Repr

/-- Rust `str::starts_with`, as a structurally recursive check on the
character data (the core `String.startsWith` does not reduce in the
kernel). -/
def strStartsWith (s p : String) : Bool := p.data.isPrefixOf s.data

/-- Byte slicing `&s[n..]` for ASCII strings: drop the first `n`
characters. -/
def strDrop (s : String) (n : Nat) : String := String.mk (s.data.drop n)

/-- Rust `str::is_empty`. -/
def strIsEmpty (s : String) : Bool := s.data.isEmpty

/-- Rust `str::len` as the character count (equal to the byte count for the
ASCII strings involved; only compared against zero). -/
def strLen (s : String) : Nat := s.data.length

/-- Split a character list at every occurrence of `sep` (Rust
`str::split(sep)` semantics: `""` yields `[""]`, a trailing separator yields
a trailing empty piece). -/
def splitOnChar (sep : Char) : List Char → List (List Char)
  | [] => [[]]
  | c :: cs =>
    let r := splitOnChar sep cs
    if c = sep then [] :: r
    else
      match r with
      | a :: rest => (c :: a) :: rest
      | [] => [[c]]

/-- Rust `str::split(sep)` over a single-character separator. -/
def strSplitOn (s : String) (sep : Char) : List String :=
  (splitOnChar sep s.data).map String.mk

/-- Network transport (flow.rs `Transport`). -/
inductive Transport where
  | ANY
  | UDP
  | MCAST
  | TCP
deriving DecidableEq, Repr

/-- Video encoding (flow.rs `Encoding`). -/
inductive Encoding where
  | RAW
  | PNG
  | MJPEG
  | MPEG2
  | MPEG4
  | H264
  | H265
  | VP8
  | VP9
  | AV1
deriving DecidableEq, Repr

/-- `impl FromStr for Transport`. -/
def Transport.from_str (s : String) : Except Error Transport :=
  match s with
  | "ANY" => .ok .ANY
  | "UDP" => .ok .UDP
  | "MCAST" => .ok .MCAST
  | "TCP" => .ok .TCP
  | _ => .error (.Other "invalid transport")

/-- `impl FromStr for Encoding`.  Note `"H264" | ""` both map to H264. -/
def Encoding.from_str (s : String) : Except Error Encoding :=
  match s with
  | "RAW" => .ok .RAW
  | "PNG" => .ok .PNG
  | "MJPEG" => .ok .MJPEG
  | "MPEG2" => .ok .MPEG2
  | "MPEG4" => .ok .MPEG4
  | "H264" => .ok .H264
  | "" => .ok .H264
  | "H265" => .ok .H265
  | "VP8" => .ok .VP8
  | "VP9" => .ok .VP9
  | _ => .error (.Other "invalid encoding")

/-- `Encoding::rtp_depay`: RTP depayload factory name.  The Rust catch-all arm
covers exactly `PNG` and `AV1`. -/
def Encoding.rtp_depay : Encoding → Except Error String
  | .RAW => .ok "rtpvrawdepay"
  | .MJPEG => .ok "rtpjpegdepay"
  | .MPEG2 => .ok "rtpmp2tdepay"
  | .MPEG4 => .ok "rtpmp4vdepay"
  | .H264 => .ok "rtph264depay"
  | .H265 => .ok "rtph265depay"
  | .VP8 => .ok "rtpvp8depay"
  | .VP9 => .ok "rtpvp9depay"
  | .PNG => .error (.Other "invalid encoding for RTP")
  | .AV1 => .error (.Other "invalid encoding for RTP")

/-- `Encoding::rtp_pay`: RTP payload factory name.  The Rust catch-all arm
covers exactly `PNG` and `AV1`. -/
def Encoding.rtp_pay : Encoding → Except Error String
  | .RAW => .ok "rtpvrawpay"
  | .MJPEG => .ok "rtpjpegpay"
  | .MPEG2 => .ok "rtpmp2tpay"
  | .MPEG4 => .ok "rtpmp4vpay"
  | .H264 => .ok "rtph264pay"
  | .H265 => .ok "rtph265pay"
  | .VP8 => .ok "rtpvp8pay"
  | .VP9 => .ok "rtpvp9pay"
  | .PNG => .error (.Other "invalid encoding for RTP")
  | .AV1 => .error (.Other "invalid encoding for RTP")

/-- Hardware video acceleration (flow.rs `Acceleration`). -/
inductive Acceleration where
  | NONE
  | VAAPI
  | OMX
deriving DecidableEq, Repr

/-- `impl FromStr for Acceleration`. -/
def Acceleration.from_str (s : String) : Except Error Acceleration :=
  match s with
  | "" => .ok .NONE
  | "NONE" => .ok .NONE
  | "VAAPI" => .ok .VAAPI
  | "OMX" => .ok .OMX
  | _ => .error (.Other "invalid acceleration")

/-- Pixel aspect ratio handling (flow.rs `AspectRatio`; shortened name). -/
inductive Aspect where
  | FILL
  | PRESERVE
deriving DecidableEq, Repr

/-- Video source (flow.rs `Source`); integer fields are `u16`/`u32` in Rust. -/
structure Source where
  location : String := ""
  rtsp_transport : Transport := .ANY
  encoding : Encoding := .RAW
  sprops : Option String := none
  timeout : Nat := 2
  latency : Nat := 100
deriving DecidableEq, Repr

/-- `Source::is_rtp`. -/
def Source.is_rtp (s : Source) : Bool := strStartsWith s.location "udp://"

/-- `Source::is_rtsp`. -/
def Source.is_rtsp (s : Source) : Bool := strStartsWith s.location "rtsp://"

/-- `Source::is_rtp_or_rtsp`. -/
def Source.is_rtp_or_rtsp (s : Source) : Bool := s.is_rtp || s.is_rtsp

/-- `Source::is_http`. -/
def Source.is_http (s : Source) : Bool := strStartsWith s.location "http://"

/-- Video matrix crop configuration (flow.rs `MatrixCrop`); `x y width height`
are `u8`, `hgap vgap` are `u32`. -/
structure MatrixCrop where
  aspect : Aspect := .PRESERVE
  x : Nat := 0
  y : Nat := 0
  width : Nat := 1
  height : Nat := 1
  hgap : Nat := 0
  vgap : Nat := 0
deriving DecidableEq, Repr

/-- `MatrixCrop::PERCENT`: percent of window, in hundredths. -/
def MatrixCrop.PERCENT : Nat := 10000

/-- `MatrixCrop::position`: matrix position from a crop code character. -/
def MatrixCrop.position (c : Char) : Except Error Nat :=
  if 'A' ≤ c ∧ c ≤ 'H' then .ok (c.toNat - 'A'.toNat) else .error .InvalidCrop

/-- `MatrixCrop::is_cropped`. -/
def MatrixCrop.is_cropped (m : MatrixCrop) : Bool := m.width > 1 || m.height > 1

/-- Rust `str::parse::<uN>` for an unsigned integer type with exclusive upper
bound `bound`: optional leading plus sign, then one or more ASCII digits, and
the value must fit. -/
def parseUInt (bound : Nat) (s : String) : Except Error Nat :=
  let cs := match s.data with
    | '+' :: rest => rest
    | cs => cs
  if cs ≠ [] ∧ cs.all Char.isDigit then
    let n := cs.foldl (fun a c => a * 10 + (c.toNat - '0'.toNat)) 0
    if n < bound then .ok n else .error .ParseInt
  else .error .ParseInt

/-- `impl TryFrom<&str> for MatrixCrop`: parse `"<4-char-code>,<hgap>,<vgap>"`.
`crop.next().unwrap_or_default()` yields the NUL character when the code is
short. -/
def MatrixCrop.try_from (v : String) : Except Error MatrixCrop :=
  match strSplitOn v ',' with
  | [p0, p1, p2] =>
    match MatrixCrop.position (p0.data.getD 0 (Char.ofNat 0)),
        MatrixCrop.position (p0.data.getD 1 (Char.ofNat 0)),
        MatrixCrop.position (p0.data.getD 2 (Char.ofNat 0)),
        MatrixCrop.position (p0.data.getD 3 (Char.ofNat 0)) with
    | .ok x, .ok y, .ok w0, .ok h0 =>
      if x < w0 + 1 ∧ y < h0 + 1 then
        match parseUInt U32 p1, parseUInt U32 p2 with
        | .ok hgap, .ok vgap =>
          if hgap ≤ MatrixCrop.PERCENT / 2 ∧ vgap ≤ MatrixCrop.PERCENT / 2 then
            .ok
              { aspect := .PRESERVE, x, y, width := w0 + 1, height := h0 + 1,
                hgap, vgap }
          else .error .InvalidCrop
        | .error e, _ => .error e
        | _, .error e => .error e
      else .error .InvalidCrop
    | .error e, _, _, _ => .error e
    | _, .error e, _, _ => .error e
    | _, _, .error e, _ => .error e
    | _, _, _, .error e => .error e
  | _ => .error .InvalidCrop

/-- `MatrixCrop::top`: pixels to crop from the top edge, in wrapping `u32`
arithmetic. -/
def MatrixCrop.top (m : MatrixCrop) (height : Nat) : Nat :=
  let num := m.y
  let den := m.height
  let pix := height * num % U32 / den
  let gap := height * m.vgap % U32 / (den * MatrixCrop.PERCENT % U32 * 2 % U32)
  (pix + gap) % U32

/-- `MatrixCrop::bottom`: pixels to crop from the bottom edge. -/
def MatrixCrop.bottom (m : MatrixCrop) (height : Nat) : Nat :=
  let num := m.height - m.y - 1
  let den := m.height
  let pix := height * num % U32 / den
  let gap := height * m.vgap % U32 / (den * MatrixCrop.PERCENT % U32 * 2 % U32)
  (pix + gap) % U32

/-- `MatrixCrop::left`: pixels to crop from the left edge. -/
def MatrixCrop.left (m : MatrixCrop) (width : Nat) : Nat :=
  let num := m.x
  let den := m.width
  let pix := width * num % U32 / den
  let gap := width * m.hgap % U32 / (den * MatrixCrop.PERCENT % U32 * 2 % U32)
  (pix + gap) % U32

/-- `MatrixCrop::right`: pixels to crop from the right edge. -/
def MatrixCrop.right (m : MatrixCrop) (width : Nat) : Nat :=
  let num := m.width - m.x - 1
  let den := m.width
  let pix := width * num % U32 / den
  let gap := width * m.hgap % U32 / (den * MatrixCrop.PERCENT % U32 * 2 % U32)
  (pix + gap) % U32

/-- Video sink (flow.rs `Sink`); `RTP(addr, port, encoding, insert_config)`. -/
inductive Sink where
  | FAKE
  | RTP (addr : String) (port : Int) (encoding : Encoding)
      (insertConfig : Bool)
  | WINDOW (crop : MatrixCrop)
deriving DecidableEq, Repr

/-- `Sink::is_rtp`. -/
def Sink.is_rtp : Sink → Bool
  | .RTP _ _ _ _ => true
  | _ => false

/-- `Sink::factory_name`. -/
def Sink.factory_name : Sink → Acceleration → String
  | .FAKE, _ => "fakesink"
  | .RTP _ _ _ _, _ => "udpsink"
  | .WINDOW _, .VAAPI => "vaapisink"
  | .WINDOW _, _ => "gtksink"

/-- `Sink::crop`. -/
def Sink.crop : Sink → MatrixCrop
  | .WINDOW c => c
  | _ => {}

/-- `Sink::encoding`. -/
def Sink.encoding : Sink → Encoding
  | .RTP _ _ e _ => e
  | _ => .RAW

/-- `Sink::insert_config`. -/
def Sink.insert_config : Sink → Bool
  | .RTP _ _ _ true => true
  | _ => false

/-- Builder for video flows (flow.rs `FlowBuilder`), restricted to the
configuration fields that determine the planned topology. -/
structure FlowBuilder where
  idx : Nat := 0
  source : Source := {}
  sink : Sink := .FAKE
  acceleration : Acceleration := .NONE
  overlay_text : Option String := none
deriving DecidableEq, Repr

/-- `FlowBuilder::has_text`. -/
def FlowBuilder.has_text (b : FlowBuilder) : Bool := b.overlay_text.isSome

/-- `FlowBuilder::needs_transcode`. -/
def FlowBuilder.needs_transcode (b : FlowBuilder) : Bool :=
  decide (b.source.encoding ≠ b.sink.encoding) || b.has_text

/-- `FlowBuilder::is_rtp_passthru`. -/
def FlowBuilder.is_rtp_passthru (b : FlowBuilder) : Bool :=
  b.source.is_rtp_or_rtsp && b.sink.is_rtp && !b.sink.insert_config
    && !b.needs_transcode

/-- `FlowBuilder::needs_rtp_pay`. -/
def FlowBuilder.needs_rtp_pay (b : FlowBuilder) : Bool :=
  b.sink.is_rtp && !b.is_rtp_passthru

/-- `FlowBuilder::needs_rtp_depay`. -/
def FlowBuilder.needs_rtp_depay (b : FlowBuilder) : Bool :=
  b.source.is_rtp_or_rtsp && !b.is_rtp_passthru

/-- `FlowBuilder::needs_encode`. -/
def FlowBuilder.needs_encode (b : FlowBuilder) : Bool :=
  decide (b.sink.encoding ≠ .RAW) && b.needs_transcode

/-- `FlowBuilder::needs_decode`. -/
def FlowBuilder.needs_decode (b : FlowBuilder) : Bool :=
  decide (b.source.encoding ≠ .RAW) && b.needs_transcode

/-- `FlowBuilder::create_h264enc`: h.264 encoder factory by acceleration. -/
def FlowBuilder.create_h264enc (b : FlowBuilder) : String :=
  match b.acceleration with
  | .VAAPI => "vaapih264enc"
  | .OMX => "omxh264enc"
  | .NONE => "x264enc"

/-- `FlowBuilder::create_h265enc`. -/
def FlowBuilder.create_h265enc (b : FlowBuilder) : String :=
  match b.acceleration with
  | .VAAPI => "vaapih265enc"
  | _ => "x265enc"

/-- `FlowBuilder::create_vp8enc`. -/
def FlowBuilder.create_vp8enc (b : FlowBuilder) : String :=
  match b.acceleration with
  | .VAAPI => "vaapivp8enc"
  | _ => "vp8enc"

/-- `FlowBuilder::create_vp9enc`. -/
def FlowBuilder.create_vp9enc (b : FlowBuilder) : String :=
  match b.acceleration with
  | .VAAPI => "vaapivp9enc"
  | _ => "vp9enc"

/-- `FlowBuilder::add_encode`: encoder element chain for the sink encoding.
The Rust catch-all arm covers exactly `PNG`; `RAW` adds nothing. -/
def FlowBuilder.add_encode (b : FlowBuilder) : Except Error (List String) :=
  match b.sink.encoding with
  | .RAW => .ok []
  | .MJPEG => .ok ["jpegenc"]
  | .MPEG2 => .ok ["mpegtsmux", "mpeg2enc"]
  | .MPEG4 => .ok ["avenc_mpeg4"]
  | .H264 => .ok [b.create_h264enc]
  | .H265 => .ok [b.create_h265enc]
  | .VP8 => .ok [b.create_vp8enc]
  | .VP9 => .ok [b.create_vp9enc]
  | .AV1 => .ok ["av1enc"]
  | .PNG => .error (.Other "invalid encoding")

/-- `FlowBuilder::create_h264dec`. -/
def FlowBuilder.create_h264dec (b : FlowBuilder) : String :=
  match b.acceleration with
  | .VAAPI => "vaapih264dec"
  | .OMX => "omxh264dec"
  | .NONE => "avdec_h264"

/-- `FlowBuilder::create_h265dec`. -/
def FlowBuilder.create_h265dec (b : FlowBuilder) : String :=
  match b.acceleration with
  | .VAAPI => "vaapih265dec"
  | _ => "libde265dec"

/-- `FlowBuilder::create_vp8dec`. -/
def FlowBuilder.create_vp8dec (b : FlowBuilder) : String :=
  match b.acceleration with
  | .VAAPI => "vaapivp8dec"
  | .OMX => "omxvp8dec"
  | .NONE => "vp8dec"

/-- `FlowBuilder::create_vp9dec`. -/
def FlowBuilder.create_vp9dec (b : FlowBuilder) : String :=
  match b.acceleration with
  | .VAAPI => "vaapivp9dec"
  | _ => "vp9dec"

/-- `FlowBuilder::add_decode`: decoder element chain for the source encoding.
The Rust catch-all arm covers exactly `RAW`. -/
def FlowBuilder.add_decode (b : FlowBuilder) : Except Error (List String) :=
  match b.source.encoding with
  | .PNG => .ok ["imagefreeze", "videoconvert", "pngdec"]
  | .MJPEG => .ok ["jpegdec"]
  | .MPEG2 => .ok ["mpeg2dec", "tsdemux"]
  | .MPEG4 => .ok ["avdec_mpeg4"]
  | .H264 => .ok [b.create_h264dec]
  | .H265 => .ok [b.create_h265dec]
  | .VP8 => .ok [b.create_vp8dec]
  | .VP9 => .ok [b.create_vp9dec]
  | .AV1 => .ok ["av1dec"]
  | .RAW => .error (.Other "invalid encoding")

/-- `FlowBuilder::location_http`: only PNG and MJPEG may use HTTP sources. -/
def FlowBuilder.location_http (b : FlowBuilder) : Except Error String :=
  match b.source.encoding with
  | .PNG => .ok b.source.location
  | .MJPEG => .ok b.source.location
  | _ => .error (.Other "invalid encoding for HTTP")

/-- `FlowBuilder::add_source`: source element chain by location scheme. -/
def FlowBuilder.add_source (b : FlowBuilder) : Except Error (List String) :=
  if b.source.is_rtp then
    .ok ((if !b.source.is_rtsp then ["rtpjitterbuffer", "capsfilter"] else [])
      ++ ["udpsrc"])
  else if b.source.is_rtsp then
    .ok ["rtspsrc"]
  else if b.source.is_http then
    match b.location_http with
    | .ok _ => .ok ["souphttpsrc"]
    | .error e => .error e
  else
    .ok ["videotestsrc"]

/-- `FlowBuilder::add_elements`: the planned pipeline topology as the ordered
list of element factory names, sink first (the order in which the Rust code
adds them). -/
def FlowBuilder.add_elements (b : FlowBuilder) : Except Error (List String) := do
  let sinkStage := [b.sink.factory_name b.acceleration]
  let pay ← if b.needs_rtp_pay then do
      let f ← b.sink.encoding.rtp_pay
      pure [f]
    else pure []
  let enc ← if b.needs_encode then do
      let es ← b.add_encode
      pure (es ++ ["queue"])
    else pure []
  let crop := if b.sink.crop.is_cropped then ["videobox"] else []
  let text := if b.has_text then ["textoverlay", "queue"] else []
  let dec ← if b.needs_decode then do
      let es ← b.add_decode
      pure (es ++ ["queue"])
    else pure []
  let depay ← if b.needs_rtp_depay then do
      let f ← b.source.encoding.rtp_depay
      pure [f]
    else pure []
  let passq := if b.is_rtp_passthru then ["queue"] else []
  let src ← b.add_source
  pure (sinkStage ++ pay ++ enc ++ crop ++ text ++ dec ++ depay ++ passq ++ src)

/-- Flow feedback (flow.rs `Feedback`). -/
inductive Feedback where
  | Playing (idx : Nat)
  | Stopped (idx : Nat)
  | Stats (idx : Nat) (pushed lost late : Nat)
deriving DecidableEq, Repr

/-- Cumulative packet counters of a `FlowBuilder` (`pushed`, `lost`, `late`;
`u64` in Rust). -/
structure PacketStats where
  pushed : Nat := 0
  lost : Nat := 0
  late : Nat := 0
deriving DecidableEq, Repr

/-- Runtime state of a built flow's bus watcher: the `FlowBuilder` fields
mutated by `handle_message` (`is_playing` and the packet counters). -/
structure FlowState where
  idx : Nat := 0
  is_playing : Bool := false
  stats : PacketStats := {}
deriving DecidableEq, Repr

/-- `FlowBuilder::stopped`: emit `Feedback::Stopped` only when currently
playing, then clear `is_playing`. -/
def FlowState.stopped (s : FlowState) : FlowState × List Feedback :=
  if s.is_playing then
    ({ s with is_playing := false }, [.Stopped s.idx])
  else (s, [])

/-- `FlowBuilder::stop`: set the pipeline state to Null (framework side
effect, not modelled) and call `stopped`. -/
def FlowState.stop (s : FlowState) : FlowState × List Feedback := s.stopped

/-- `FlowBuilder::update_packet_stats`.  `readout` is the result of
`update_jitter_stats`: `some r` when the jitter element exists and all three
counters were read (they are then assigned together), `none` when the element
is absent or the readout failed (counters left unchanged). -/
def FlowState.update_packet_stats (s : FlowState) (readout : Option PacketStats) :
    FlowState × List Feedback :=
  let old := s.stats
  let st := match readout with
    | some r => r
    | none => old
  let s' := { s with stats := st }
  if old.pushed ≤ st.pushed ∧ old.lost ≤ st.lost ∧ old.late ≤ st.late then
    (s', [.Stats s.idx (st.pushed - old.pushed) (st.lost - old.lost)
      (st.late - old.late)])
  else (s', [])

/-- A bus message as discriminated by `FlowBuilder::handle_message`.
`application` carries the jitter-buffer readout consumed by
`update_packet_stats`; `stateChangedPlayingPipeline` is a StateChanged message
to Playing whose source is the pipeline. -/
inductive Message where
  | asyncDone
  | eos
  | stateChangedPlayingPipeline
  | stateChangedNull
  | stateChangedOther
  | error
  | warning
  | elementUdpTimeout
  | elementOther
  | application (readout : Option PacketStats)
  | other
deriving DecidableEq, Repr

/-- `FlowBuilder::handle_message`: state transition and emitted feedback for
one bus message. -/
def FlowState.handle_message (s : FlowState) (m : Message) :
    FlowState × List Feedback :=
  match m with
  | .asyncDone => ({ s with is_playing := true }, [.Playing s.idx])
  | .eos => s.stop
  | .stateChangedPlayingPipeline => (s, [])
  | .stateChangedNull => s.stopped
  | .stateChangedOther => (s, [])
  | .error => s.stop
  | .warning => s.stop
  | .elementUdpTimeout => s.stop
  | .elementOther => (s, [])
  | .application r => s.update_packet_stats r
  | .other => (s, [])

/-- Process a sequence of bus messages, collecting all emitted feedback. -/
def FlowState.run (s : FlowState) : List Message → FlowState × List Feedback
  | [] => (s, [])
  | m :: ms =>
    let (s', fb) := s.handle_message m
    let (s'', fbs) := s'.run ms
    (s'', fb ++ fbs)

/-- Count the `Feedback::Stopped` events in a feedback list. -/
def countStopped (fbs : List Feedback) : Nat :=
  (fbs.filter fun f => match f with
    | .Stopped _ => true
    | _ => false).length

/-- Periodic flow checker (flow.rs `FlowChecker`).  `last_pts` is a
`ClockTime`, i.e. an optional `u64` timestamp. -/
structure FlowChecker where
  idx : Nat := 0
  count : Nat := 0
  last_pts : Option Nat := none
deriving DecidableEq, Repr

/-- What `FlowChecker::is_stuck` observes on the sink: `sample pts` when both
last-sample and its buffer are present (`pts` is the buffer's ClockTime),
`noSample` when the property read failed, the sample is absent, or the buffer
is missing (all of which fall through to the count check). -/
inductive SinkObs where
  | sample (pts : Option Nat)
  | noSample
deriving DecidableEq, Repr

/-- What one `FlowChecker::do_check` tick observes. -/
inductive TickObs where
  | pipelineGone
  | pipelineNull
  | postStatsFailed
  | sinkGone
  | sinkObs (obs : SinkObs)
deriving DecidableEq, Repr

/-- `FlowChecker::is_stuck`: whether the sink's PTS is unchanged since the
previous observation; updates `last_pts` when it changed.  When no sample is
available, stuck once `count` exceeds `PTS_CHECK_TRIES`. -/
def FlowChecker.is_stuck (c : FlowChecker) (obs : SinkObs) :
    Bool × FlowChecker :=
  match obs with
  | .sample pts =>
    if pts = c.last_pts then (true, c)
    else (false, { c with last_pts := pts })
  | .noSample => (decide (c.count > PTS_CHECK_TRIES), c)

/-- `FlowChecker::do_check`: one supervisor tick.  Returns the new checker
state, whether a synthesized EOS was posted (`check_sink` posts EOS exactly
when `is_stuck`; a successful bus post is assumed), and whether the periodic
check continues (`glib::Continue`). -/
def FlowChecker.do_check (c : FlowChecker) (t : TickObs) :
    FlowChecker × Bool × Bool :=
  let c1 := { c with count := c.count + 1 }
  match t with
  | .pipelineGone => (c1, false, false)
  | .pipelineNull => ({ c1 with count := 0 }, false, true)
  | .postStatsFailed => (c1, false, false)
  | .sinkGone => (c1, false, false)
  | .sinkObs obs =>
    let (stuck, c2) := c1.is_stuck obs
    (c2, stuck, true)

/-- Run the checker over a sequence of ticks, recording for each executed tick
whether EOS was posted; the timer stops calling once `do_check` returns
`Continue(false)`. -/
def FlowChecker.run_ticks (c : FlowChecker) : List TickObs → List Bool
  | [] => []
  | t :: ts =>
    let (c', eos, cont) := c.do_check t
    eos :: (if cont then c'.run_ticks ts else [])

/-- Exclusive upper bound of Rust `u16`. -/
def U16 : Nat := 2 ^ 16

/-- Exclusive upper bound of Rust `usize` (64-bit target). -/
def USIZE : Nat := 2 ^ 64

/-- Configuration for one flow (main.rs `FlowConfig`); `Location` defaults to
`"test"`. -/
structure FlowConfig where
  location : String := "test"
  rtsp_transport : Option String := none
  source_encoding : Option String := none
  timeout : Option Nat := none
  latency : Option Nat := none
  sprops : Option String := none
  overlay_text : Option String := none
  address : Option String := none
  port : Option Nat := none
  sink_encoding : Option String := none
deriving DecidableEq, Repr

/-- `FlowConfig::rtsp_transport` (accessor): parse, falling back to the
default transport. -/
def FlowConfig.rtsp_transport' (fc : FlowConfig) : Transport :=
  match fc.rtsp_transport with
  | some t =>
    match Transport.from_str t with
    | .ok t => t
    | .error _ => .ANY
  | none => .ANY

/-- `FlowConfig::source_encoding` (accessor): parse, falling back to the
default encoding. -/
def FlowConfig.source_encoding' (fc : FlowConfig) : Encoding :=
  match fc.source_encoding with
  | some e =>
    match Encoding.from_str e with
    | .ok e => e
    | .error _ => .RAW
  | none => .RAW

/-- `FlowConfig::timeout` (accessor): default 2 seconds. -/
def FlowConfig.timeout' (fc : FlowConfig) : Nat := fc.timeout.getD 2

/-- `FlowConfig::latency` (accessor): default 200 ms. -/
def FlowConfig.latency' (fc : FlowConfig) : Nat := fc.latency.getD 200

/-- `FlowConfig::source`: build the `Source` (note: `sprops` is not passed
through by the Rust code). -/
def FlowConfig.source (fc : FlowConfig) : Source :=
  { location := fc.location
    rtsp_transport := fc.rtsp_transport'
    encoding := fc.source_encoding'
    sprops := none
    timeout := fc.timeout'
    latency := fc.latency' }

/-- `FlowConfig::sink_encoding` (accessor): parse, falling back to the source
encoding. -/
def FlowConfig.sink_encoding' (fc : FlowConfig) : Encoding :=
  match fc.sink_encoding with
  | some e =>
    match Encoding.from_str e with
    | .ok e => e
    | .error _ => fc.source_encoding'
  | none => fc.source_encoding'

/-- `FlowConfig::sink`: an RTP sink (with `insert_config = true`) when both
address and port are set, else the fake sink. -/
def FlowConfig.sink (fc : FlowConfig) : Sink :=
  match fc.address, fc.port with
  | some address, some port =>
    .RTP address (Int.ofNat port) fc.sink_encoding' true
  | _, _ => .FAKE

/-- Streambed configuration (main.rs `Config`). -/
structure Config where
  control_port : Option Nat := none
  acceleration : Option String := none
  flow : List FlowConfig := []
deriving DecidableEq, Repr

/-- A built flow, represented by its planned element chain (the runtime
pipeline handle is a framework object). -/
abbrev Flow := List String

/-- The `FlowBuilder` that `Config::create_flow` assembles for flow `number`
from its `FlowConfig`. -/
def Config.flow_builder (number : Nat) (accel : Acceleration)
    (fc : FlowConfig) : FlowBuilder :=
  { idx := number
    acceleration := accel
    source := fc.source
    overlay_text := fc.overlay_text
    sink := fc.sink }

/-- `Config::create_flow`: parse the acceleration, find the flow config, and
build (`FlowBuilder::build` is modelled by its `add_elements` plan). -/
def Config.create_flow (cfg : Config) (number : Nat) : Except Error Flow := do
  let accel ← match cfg.acceleration with
    | some a => Acceleration.from_str a
    | none => pure Acceleration.NONE
  match cfg.flow.get? number with
  | some fc => (Config.flow_builder number accel fc).add_elements
  | none => .error (.Other "Invalid flow number")

/-- `Config::into_flows`: build every configured flow in order. -/
def Config.into_flows (cfg : Config) : Except Error (List Flow) :=
  (List.range cfg.flow.length).mapM cfg.create_flow

/-- `param_value`: one `key\x1Fvalue` field must split into exactly a key and
a value. -/
def param_value (field key : String) : Option String :=
  match strSplitOn field '\x1F' with
  | [k, v] => if k = key then some v else none
  | _ => none

/-- `impl Parameters for &str`: fields are delimited by the record separator
`\x1E`. -/
def str_value (params key : String) : Option String :=
  (strSplitOn params '\x1E').findSome? fun p => param_value p key

/-- The per-field updates of `Config::flow_subcommand` applied to one
`FlowConfig`, in source order; each parse failure aborts the update. -/
def apply_flow_params (fc : FlowConfig) (params : String) :
    Except Error FlowConfig := do
  let fc ← match str_value params "location" with
    | some location =>
      if strIsEmpty location then .error (.Other "Invalid location")
      else pure { fc with location }
    | none => pure fc
  let fc ← match str_value params "rtsp-transport" with
    | some t =>
      pure { fc with rtsp_transport := if strLen t > 0 then some t else none }
    | none => pure fc
  let fc ← match str_value params "source-encoding" with
    | some e =>
      pure { fc with source_encoding := if strLen e > 0 then some e else none }
    | none => pure fc
  let fc ← match str_value params "timeout" with
    | some t => do
      let v ← parseUInt U16 t
      pure { fc with timeout := some v }
    | none => pure fc
  let fc ← match str_value params "latency" with
    | some l =>
      if strLen l > 0 then do
        let v ← parseUInt U32 l
        pure { fc with latency := some v }
      else pure { fc with latency := none }
    | none => pure fc
  let fc ← match str_value params "address" with
    | some a =>
      pure { fc with address := if strLen a > 0 then some a else none }
    | none => pure fc
  let fc ← match str_value params "port" with
    | some p =>
      if strLen p > 0 then do
        let v ← parseUInt U16 p
        pure { fc with port := some v }
      else pure { fc with port := none }
    | none => pure fc
  let fc ← match str_value params "sink-encoding" with
    | some e =>
      pure { fc with sink_encoding := if strLen e > 0 then some e else none }
    | none => pure fc
  let fc ← match str_value params "overlay-text" with
    | some t =>
      pure { fc with overlay_text := if strLen t > 0 then some t else none }
    | none => pure fc
  pure fc

/-- `Config::flow_subcommand`: resolve the flow number, apply the parameter
updates to that slot, and persist; returns the stored configuration and the
flow number.  An error leaves the persisted configuration unchanged (the
`store()` call is only reached on success). -/
def Config.flow_subcommand (cfg : Config) (params : String) :
    Except Error (Config × Nat) := do
  let numberStr ← match str_value params "number" with
    | some v => pure v
    | none => .error (.Other "Missing flow number")
  let number ← parseUInt USIZE numberStr
  match cfg.flow.get? number with
  | some fc => do
    let fc' ← apply_flow_params fc params
    pure ({ cfg with flow := cfg.flow.set number fc' }, number)
  | none => .error (.Other "Invalid flow number")

/-- `Vec::resize_with(n, Default::default)` on the flow list. -/
def resize_flows (l : List FlowConfig) (n : Nat) : List FlowConfig :=
  l.take n ++ List.replicate (n - l.length) ({} : FlowConfig)

/-- `Config::config_subcommand`: update global settings and persist. -/
def Config.config_subcommand (cfg : Config) (params : String) :
    Except Error Config := do
  let cfg ← match str_value params "acceleration" with
    | some a => pure { cfg with acceleration := some a }
    | none => pure cfg
  let cfg ← match str_value params "control-port" with
    | some p =>
      if strLen p > 0 then do
        let v ← parseUInt U16 p
        pure { cfg with control_port := some v }
      else pure { cfg with control_port := none }
    | none => pure cfg
  let cfg ← match str_value params "flows" with
    | some f => do
      let flows ← parseUInt USIZE f
      if flows ≠ cfg.flow.length then
        pure { cfg with flow := resize_flows cfg.flow flows }
      else pure cfg
    | none => pure cfg
  pure cfg

/-- `process_command` (main.rs): dispatch one command frame.  `cfg` is the
persisted configuration store (`Config::load` reads it, the subcommands write
it back); the returned triple is the resulting store, the resulting shared
flow list, and the `Result` (`none` for `Ok`).  On error the flow list is
returned as the code leaves it. -/
def process_command (cfg : Config) (cmd : String) (flows : List Flow) :
    Config × List Flow × Option Error :=
  if strStartsWith cmd "flow\x1E" then
    match cfg.flow_subcommand (strDrop cmd 5) with
    | .error e => (cfg, flows, some e)
    | .ok (cfg', number) =>
      match flows.get? number with
      | none => (cfg', flows, some (.Other "Invalid flow number"))
      | some _ =>
        match cfg'.create_flow number with
        | .error e => (cfg', flows, some e)
        | .ok f => (cfg', flows.set number f, none)
  else if strStartsWith cmd "config\x1E" then
    match cfg.config_subcommand (strDrop cmd 7) with
    | .error e => (cfg, flows, some e)
    | .ok cfg' =>
      match cfg'.into_flows with
      | .error e => (cfg', [], some e)
      | .ok fs => (cfg', fs, none)
  else (cfg, flows, some (.Other "Invalid command"))

/-- `process_commands` (main.rs): the per-connection command loop.  Each
element of the list is the result of one `read_until(0x1D)` call: the frame
content without the group separator, and whether the separator was found
(only the final read at end of stream can lack it).  The loop stops either at
end of stream (`Ok`) or at the first error, which `?`-propagates out of
`process_commands` and ends the connection. -/
def process_commands (cfg : Config) (flows : List Flow) :
    List (String × Bool) → Config × List Flow × Option Error
  | [] => (cfg, flows, none)
  | (content, sepFound) :: rest =>
    if sepFound then
      match process_command cfg content flows with
      | (cfg', flows', none) => process_commands cfg' flows' rest
      | (cfg', flows', some e) => (cfg', flows', some e)
    else if strIsEmpty content then (cfg, flows, none)
    else (cfg, flows, some (.Other "Invalid command separator"))

/-- `isStopNotification`: the bus messages on which `handle_message` invokes
the stop path (`stop` or `stopped`). -/
def isStopNotification : Message → Bool
  | .eos => true
  | .error => true
  | .warning => true
  | .elementUdpTimeout => true
  | .stateChangedNull => true
  | _ => false

/-- A demo persisted configuration with two flows. -/
def cfgDemo : Config :=
  { flow := [{}, { location := "rtsp://cam/2" }] }

/-- A demo shared flow list with two running flows. -/
def flowsDemo : List Flow :=
  [["fakesink", "videotestsrc"], ["fakesink", "videotestsrc"]]

/-- A well-formed `flow` control frame updating flow 1's location. -/
def goodFrame : String := "flow\x1Enumber\x1F1\x1Elocation\x1Frtsp://cam/9"

/-- A demo matrix crop: position (0,1) in a 2x3 matrix with 5% gaps. -/
def cropDemo : MatrixCrop :=
  { x := 0, y := 1, width := 2, height := 3, hgap := 500, vgap := 500 }

/-- The configuration store after `goodFrame` is applied to `cfgDemo`. -/
def cfgDemo9 : Config :=
  { flow := [{}, { location := "rtsp://cam/9" }] }

/-- The flow list after `goodFrame` rebuilds flow 1 of `flowsDemo`. -/
def flowsDemo9 : List Flow :=
  [["fakesink", "videotestsrc"], ["fakesink", "rtpvrawdepay", "rtspsrc"]]

/-- A demo flow config with both sink address and port set. -/
def fcDemo : FlowConfig := { address := some "239.0.0.1", port := some 5000 }

/- ------------------------------------------------------------------ -/
/- Theorems                                                            -/
/- ------------------------------------------------------------------ -/

theorem div_add_div_le_add_div (a b c : Nat) (hc : 0 < c) :
    a / c + b / c ≤ (a + b) / c := by
  rw [Nat.le_div_iff_mul_le hc]
  calc (a / c + b / c) * c = a / c * c + b / c * c := by ring
    _ ≤ a + b := Nat.add_le_add (Nat.div_mul_le_self _ _)
        (Nat.div_mul_le_self _ _)

/-- Core crop-margin bound: the wrapped-u32 sum of two opposite crop margins
(with grid numerators summing to the extent minus one and a gap of at most
50%) never exceeds the frame dimension `D`. -/
theorem crop_pair_le (D den num1 num2 gap : Nat) (hden8 : den ≤ 8)
    (hnum : num1 + num2 + 1 = den) (hgap : gap ≤ 5000) :
    (D * num1 % U32 / den
        + D * gap % U32 / (den * MatrixCrop.PERCENT % U32 * 2 % U32)) % U32
      + (D * num2 % U32 / den
        + D * gap % U32 / (den * MatrixCrop.PERCENT % U32 * 2 % U32)) % U32
      ≤ D := by
  obtain ⟨e, rfl⟩ : ∃ e, den = e + 1 := ⟨num1 + num2, hnum.symm⟩
  have hU : U32 = 4294967296 := by norm_num [U32]
  have hDen : (e + 1) * MatrixCrop.PERCENT % U32 * 2 % U32
      = (e + 1) * 20000 := by
    have h8 : e + 1 ≤ 8 := hden8
    simp only [MatrixCrop.PERCENT, hU]
    omega
  rw [hDen]
  have key : ∀ x : Nat, x % U32 ≤ x := fun x => Nat.mod_le x U32
  have t1 : (D * num1 % U32 / (e + 1)
        + D * gap % U32 / ((e + 1) * 20000)) % U32
      ≤ D * num1 / (e + 1) + D * gap / ((e + 1) * 20000) :=
    le_trans (key _) (Nat.add_le_add (Nat.div_le_div_right (key _))
      (Nat.div_le_div_right (key _)))
  have t2 : (D * num2 % U32 / (e + 1)
        + D * gap % U32 / ((e + 1) * 20000)) % U32
      ≤ D * num2 / (e + 1) + D * gap / ((e + 1) * 20000) :=
    le_trans (key _) (Nat.add_le_add (Nat.div_le_div_right (key _))
      (Nat.div_le_div_right (key _)))
  refine le_trans (Nat.add_le_add t1 t2) ?_
  have rearr : D * num1 / (e + 1) + D * gap / ((e + 1) * 20000)
      + (D * num2 / (e + 1) + D * gap / ((e + 1) * 20000))
      = (D * num1 / (e + 1) + D * num2 / (e + 1))
        + (D * gap / ((e + 1) * 20000) + D * gap / ((e + 1) * 20000)) := by
    ring
  rw [rearr]
  have hA : D * num1 / (e + 1) + D * num2 / (e + 1)
      ≤ D * (num1 + num2) / (e + 1) := by
    refine le_trans (div_add_div_le_add_div _ _ _ (Nat.succ_pos e)) ?_
    apply Nat.div_le_div_right
    rw [Nat.mul_add]
  have hB : D * gap / ((e + 1) * 20000) + D * gap / ((e + 1) * 20000)
      ≤ D / ((e + 1) * 2) := by
    refine le_trans (div_add_div_le_add_div _ _ _ (by positivity)) ?_
    have h2g : D * gap + D * gap = D * (2 * gap) := by ring
    rw [h2g]
    have hmono : D * (2 * gap) / ((e + 1) * 20000)
        ≤ D * 10000 / ((e + 1) * 20000) := by
      apply Nat.div_le_div_right
      exact Nat.mul_le_mul_left D (by omega)
    refine le_trans hmono ?_
    have hfac : (e + 1) * 20000 = (e + 1) * 2 * 10000 := by ring
    rw [hfac, Nat.mul_div_mul_right _ _ (by norm_num : (0:Nat) < 10000)]
  refine le_trans (Nat.add_le_add hA hB) ?_
  have hC1 : D * (num1 + num2) / (e + 1)
      = D * (num1 + num2) * 2 / ((e + 1) * 2) := by
    rw [Nat.mul_div_mul_right _ _ (by norm_num : (0:Nat) < 2)]
  rw [hC1]
  refine le_trans (div_add_div_le_add_div _ _ _ (by positivity)) ?_
  refine Nat.div_le_of_le_mul' ?_
  have he : num1 + num2 = e := by omega
  rw [he]
  nlinarith [Nat.zero_le D, Nat.zero_le e]

/-- C8: for every MatrixCrop with x < width ≤ 8, y < height ≤ 8 and gaps at
most 5000 (hundredths of a percent), and every u32 frame height H ≥ 1 and
width W ≥ 1, the wrapping-u32 crop margins satisfy top + bottom ≤ H and
left + right ≤ W. -/
theorem C8_crop_margins_bounded (m : MatrixCrop) (H W : Nat)
    (hx : m.x < m.width) (hw : m.width ≤ 8)
    (hy : m.y < m.height) (hh : m.height ≤ 8)
    (hhg : m.hgap ≤ 5000) (hvg : m.vgap ≤ 5000)
    (hH : 1 ≤ H) (hHu : H < U32) (hW : 1 ≤ W) (hWu : W < U32) :
    m.top H + m.bottom H ≤ H ∧ m.left W + m.right W ≤ W := by
  constructor
  · have h := crop_pair_le H m.height m.y (m.height - m.y - 1) m.vgap hh
      (by omega) hvg
    simpa [MatrixCrop.top, MatrixCrop.bottom] using h
  · have h := crop_pair_le W m.width m.x (m.width - m.x - 1) m.hgap hw
      (by omega) hhg
    simpa [MatrixCrop.left, MatrixCrop.right] using h

theorem C8_crop_margins_bounded_witness :
    cropDemo.top 480 + cropDemo.bottom 480 ≤ 480
      ∧ cropDemo.left 640 + cropDemo.right 640 ≤ 640 :=
  C8_crop_margins_bounded cropDemo 480 640 (by decide) (by decide)
    (by decide) (by decide) (by decide) (by decide) (by decide)
    (by norm_num [U32]) (by decide) (by norm_num [U32])

/-- C1 counterexample: for the claimed configuration (RTSP H264 source, RTP
H264 sink with `insert_config := true`, no overlay), `is_rtp_passthru` is
false — not true as claimed — and the planned topology contains RTP pay and
depay stages rather than only the passthrough queue. -/
theorem C1_counterexample :
    FlowBuilder.is_rtp_passthru
      { source := { location := "rtsp://cam/1", encoding := .H264 }
        sink := .RTP "239.0.0.1" 5000 .H264 true } = false
    ∧ FlowBuilder.add_elements
      { source := { location := "rtsp://cam/1", encoding := .H264 }
        sink := .RTP "239.0.0.1" 5000 .H264 true }
      = .ok ["udpsink", "rtph264pay", "rtph264depay", "rtspsrc"] := by
  exact ⟨by decide, rfl⟩

/-- C1 amended: with `insert_config := false` the passthrough optimization
applies — `is_rtp_passthru` holds and the plan is sink, passthrough queue,
source only; with `insert_config := true` it does not apply and the plan
contains pay/depay stages (but still no decode/encode). -/
theorem C1_passthru_plan :
    (FlowBuilder.is_rtp_passthru
        { source := { location := "rtsp://cam/1", encoding := .H264 }
          sink := .RTP "239.0.0.1" 5000 .H264 false } = true
      ∧ FlowBuilder.add_elements
        { source := { location := "rtsp://cam/1", encoding := .H264 }
          sink := .RTP "239.0.0.1" 5000 .H264 false }
        = .ok ["udpsink", "queue", "rtspsrc"])
    ∧ (FlowBuilder.is_rtp_passthru
        { source := { location := "rtsp://cam/1", encoding := .H264 }
          sink := .RTP "239.0.0.1" 5000 .H264 true } = false
      ∧ FlowBuilder.add_elements
        { source := { location := "rtsp://cam/1", encoding := .H264 }
          sink := .RTP "239.0.0.1" 5000 .H264 true }
        = .ok ["udpsink", "rtph264pay", "rtph264depay", "rtspsrc"]) := by
  exact ⟨⟨by decide, rfl⟩, by decide, rfl⟩

/-- C2 counterexample: starting from a fresh checker, two consecutive ticks
observing the same PTS already post a synthesized EOS on the second tick —
i.e. after a single tick observing an unchanged PTS, not after
`PTS_CHECK_TRIES` (5) such ticks. -/
theorem C2_counterexample :
    FlowChecker.run_ticks {}
      [.sinkObs (.sample (some 100)), .sinkObs (.sample (some 100))]
      = [false, true] := by
  decide

/-- C2 amended: a synthesized EOS is posted on any tick whose observed PTS
equals the previously recorded PTS — a single unchanged tick suffices; the
`PTS_CHECK_TRIES` (5) bound applies only to ticks with no observable sample,
which post EOS once more than 5 checks have elapsed. -/
theorem C2_eos_on_first_unchanged_pts :
    (∀ (c : FlowChecker) (pts : Option Nat),
      (c.do_check (.sinkObs (.sample pts))).2.1 = decide (pts = c.last_pts))
    ∧ (∀ c : FlowChecker,
      (c.do_check (.sinkObs .noSample)).2.1
        = decide (c.count + 1 > PTS_CHECK_TRIES)) := by
  constructor
  · intro c pts
    by_cases h : pts = c.last_pts <;>
      simp [FlowChecker.do_check, FlowChecker.is_stuck, h]
  · intro c
    simp [FlowChecker.do_check, FlowChecker.is_stuck]

/-- C4 counterexample: `RAW` does have an RTP mapping — both `rtp_pay` and
`rtp_depay` succeed for it — contradicting the claim that RAW is a hard
configuration error. -/
theorem C4_counterexample :
    Encoding.rtp_pay .RAW = .ok "rtpvrawpay"
      ∧ Encoding.rtp_depay .RAW = .ok "rtpvrawdepay" :=
  ⟨rfl, rfl⟩

/-- C4 amended: the `rtp_pay`/`rtp_depay` mappings fail exactly for the
encodings with no RTP mapping, which are PNG and AV1 (not PNG and RAW); every
other encoding yields a payloader/depayloader factory name. -/
theorem C4_rtp_mapping_domain :
    ∀ e : Encoding,
      ((∃ err, e.rtp_pay = .error err) ↔ e = .PNG ∨ e = .AV1)
      ∧ ((∃ err, e.rtp_depay = .error err) ↔ e = .PNG ∨ e = .AV1)
      ∧ (e ≠ .PNG ∧ e ≠ .AV1 →
        (∃ f, e.rtp_pay = .ok f) ∧ (∃ f, e.rtp_depay = .ok f)) := by
  intro e
  cases e <;> simp [Encoding.rtp_pay, Encoding.rtp_depay]

theorem C4_rtp_mapping_domain_witness :
    (∃ f, Encoding.rtp_pay .H264 = .ok f)
      ∧ (∃ f, Encoding.rtp_depay .H264 = .ok f) :=
  (C4_rtp_mapping_domain .H264).2.2 (by constructor <;> decide)

/-- C5 counterexample: parsing the crop string `"AB12,500,500"` does not
succeed — the digits `1` and `2` are not valid position codes (`'A'..='H'`)
and the parse fails with `InvalidCrop`. -/
theorem C5_counterexample :
    MatrixCrop.try_from "AB12,500,500" = .error .InvalidCrop := rfl

/-- C5 amended: position codes are the letters A..H, so `"AB12,500,500"` is
rejected; the letter-coded string `"ABBC,500,500"` parses to x=0, y=1,
width=2, height=3, hgap=500, vgap=500; parsing is deterministic (a pure
function), rejects `"ZZ00,0,0"`, and every accepted crop has hgap and vgap at
most 5000. -/
theorem C5_crop_parse :
    MatrixCrop.try_from "ABBC,500,500" = .ok cropDemo
    ∧ MatrixCrop.try_from "ZZ00,0,0" = .error .InvalidCrop
    ∧ (∀ (s : String) (m : MatrixCrop),
        MatrixCrop.try_from s = .ok m → m.hgap ≤ 5000 ∧ m.vgap ≤ 5000) := by
  refine ⟨rfl, rfl, ?_⟩
  intro s m h
  unfold MatrixCrop.try_from at h
  split at h
  all_goals try exact Except.noConfusion h
  split at h
  all_goals try exact Except.noConfusion h
  split at h
  all_goals try exact Except.noConfusion h
  split at h
  all_goals try exact Except.noConfusion h
  split at h
  all_goals try exact Except.noConfusion h
  rename_i hcond
  injection h with h
  subst h
  dsimp only
  simp only [MatrixCrop.PERCENT] at hcond
  exact ⟨by omega, by omega⟩

theorem C5_crop_parse_witness :
    MatrixCrop.try_from "ABBC,500,500" = .ok cropDemo
    ∧ cropDemo.hgap ≤ 5000 ∧ cropDemo.vgap ≤ 5000 :=
  ⟨C5_crop_parse.1,
    (C5_crop_parse.2.2 "ABBC,500,500" cropDemo rfl).1,
    (C5_crop_parse.2.2 "ABBC,500,500" cropDemo rfl).2⟩

/-- C6: a `Feedback::Stats` event is emitted for a successful jitter readout
exactly when none of the three cumulative counters decreased; the emitted
values are the exact non-negative deltas against the previous baseline, and
the baseline always becomes the new readout (also when the event is
suppressed after a decrease). -/
theorem C6_stats_delta :
    ∀ (s : FlowState) (r : PacketStats),
      (s.update_packet_stats (some r)).1.stats = r
      ∧ (∀ i p l la,
          Feedback.Stats i p l la ∈ (s.update_packet_stats (some r)).2 →
          s.stats.pushed ≤ r.pushed ∧ s.stats.lost ≤ r.lost
            ∧ s.stats.late ≤ r.late
            ∧ p = r.pushed - s.stats.pushed ∧ l = r.lost - s.stats.lost
            ∧ la = r.late - s.stats.late)
      ∧ (¬(s.stats.pushed ≤ r.pushed ∧ s.stats.lost ≤ r.lost
            ∧ s.stats.late ≤ r.late) →
          (s.update_packet_stats (some r)).2 = []) := by
  intro s r
  by_cases hcond : s.stats.pushed ≤ r.pushed ∧ s.stats.lost ≤ r.lost
      ∧ s.stats.late ≤ r.late
  · refine ⟨by simp [FlowState.update_packet_stats, hcond], ?_, ?_⟩
    · intro i p l la hmem
      simp [FlowState.update_packet_stats, hcond] at hmem
      exact ⟨hcond.1, hcond.2.1, hcond.2.2, hmem.2.1, hmem.2.2.1, hmem.2.2.2⟩
    · intro hn
      exact absurd hcond hn
  · refine ⟨by simp [FlowState.update_packet_stats, hcond], ?_, ?_⟩
    · intro i p l la hmem
      simp [FlowState.update_packet_stats, hcond] at hmem
    · intro _
      simp [FlowState.update_packet_stats, hcond]

theorem C6_stats_delta_witness :
    (FlowState.update_packet_stats { stats := { pushed := 5 } }
      (some {})).2 = [] :=
  (C6_stats_delta { stats := { pushed := 5 } } {}).2.2 (by decide)

theorem handle_stop_to_not_playing (s : FlowState) (m : Message)
    (h : isStopNotification m = true) :
    (s.handle_message m).1.is_playing = false := by
  cases m <;> simp [isStopNotification] at h <;>
    simp [FlowState.handle_message, FlowState.stop, FlowState.stopped] <;>
    (by_cases hp : s.is_playing <;> simp [hp])

theorem handle_not_playing_no_feedback (s : FlowState) (m : Message)
    (hp : s.is_playing = false) (h : isStopNotification m = true) :
    (s.handle_message m).2 = [] := by
  cases m <;> simp [isStopNotification] at h <;>
    simp [FlowState.handle_message, FlowState.stop, FlowState.stopped, hp]

theorem countStopped_append (a b : List Feedback) :
    countStopped (a ++ b) = countStopped a + countStopped b := by
  simp [countStopped, List.filter_append]

theorem run_cons (s : FlowState) (m : Message) (ms : List Message) :
    (s.run (m :: ms)).2
      = (s.handle_message m).2 ++ ((s.handle_message m).1.run ms).2 := by
  rcases h : s.handle_message m with ⟨s', fb⟩
  simp [FlowState.run, h]

theorem run_no_stopped_of_not_playing (s : FlowState) (ms : List Message)
    (hp : s.is_playing = false)
    (hms : ∀ m ∈ ms, isStopNotification m = true) :
    countStopped (s.run ms).2 = 0 := by
  induction ms generalizing s with
  | nil => simp [FlowState.run, countStopped]
  | cons m ms ih =>
    have hm := hms m (by simp)
    rw [run_cons, countStopped_append,
      handle_not_playing_no_feedback s m hp hm,
      ih _ (handle_stop_to_not_playing s m hm)
        (fun x hx => hms x (by simp [hx]))]
    simp [countStopped]

theorem handle_stop_at_most_one (s : FlowState) (m : Message)
    (hm : isStopNotification m = true) :
    countStopped (s.handle_message m).2 ≤ 1 := by
  cases m <;> simp [isStopNotification] at hm <;>
    simp [FlowState.handle_message, FlowState.stop, FlowState.stopped] <;>
    (by_cases hp : s.is_playing <;> simp [hp, countStopped])

/-- C7: `Feedback::Stopped` is emitted at most once per entry into the
stopped state — a stop notification handled while `is_playing` is already
false emits nothing, and any run of consecutive stop notifications (with no
intervening transition to playing) emits at most one `Stopped`. -/
theorem C7_stopped_idempotent :
    (∀ (s : FlowState) (m : Message), s.is_playing = false →
      isStopNotification m = true → (s.handle_message m).2 = [])
    ∧ (∀ (s : FlowState) (ms : List Message),
      (∀ m ∈ ms, isStopNotification m = true) →
      countStopped (s.run ms).2 ≤ 1) := by
  constructor
  · exact fun s m hp h => handle_not_playing_no_feedback s m hp h
  · intro s ms hms
    cases ms with
    | nil => simp [FlowState.run, countStopped]
    | cons m ms =>
      have hm := hms m (by simp)
      rw [run_cons, countStopped_append,
        run_no_stopped_of_not_playing _ ms
          (handle_stop_to_not_playing s m hm)
          (fun x hx => hms x (by simp [hx]))]
      have := handle_stop_at_most_one s m hm
      omega

theorem C7_stopped_idempotent_witness :
    countStopped ((FlowState.run { is_playing := true }
      [.eos, .eos, .stateChangedNull, .error, .warning]).2) ≤ 1 :=
  C7_stopped_idempotent.2 { is_playing := true }
    [.eos, .eos, .stateChangedNull, .error, .warning] (by decide)

/-- C3 counterexample: a connection stream whose first frame has an
unrecognized prefix returns the "Invalid command" error from the command
loop — ending the connection — and the following well-formed `flow` frame is
never processed (processing it alone would have succeeded). -/
theorem C3_counterexample :
    (process_commands cfgDemo flowsDemo [("bogus", true), (goodFrame, true)]
      = (cfgDemo, flowsDemo, some (.Other "Invalid command")))
    ∧ (process_commands cfgDemo flowsDemo [(goodFrame, true)]).2.2 = none :=
  ⟨rfl, rfl⟩

/-- C3 amended: a frame whose prefix is neither `flow\x1E` nor `config\x1E`
is rejected with an "Invalid command" error that propagates out of the
command loop, terminating processing of the connection (which is then
closed); no subsequent frame on that connection is processed.  The flow list
and configuration store are left unchanged by the rejected frame. -/
theorem C3_unrecognized_ends_loop
    (cfg : Config) (flows : List Flow) (cmd : String)
    (rest : List (String × Bool))
    (h1 : strStartsWith cmd "flow\x1E" = false)
    (h2 : strStartsWith cmd "config\x1E" = false) :
    process_commands cfg flows ((cmd, true) :: rest)
      = (cfg, flows, some (.Other "Invalid command")) := by
  simp [process_commands, process_command, h1, h2]

theorem C3_unrecognized_ends_loop_witness :
    process_commands cfgDemo flowsDemo [("bogus", true), (goodFrame, true)]
      = (cfgDemo, flowsDemo, some (.Other "Invalid command")) :=
  C3_unrecognized_ends_loop cfgDemo flowsDemo "bogus" [(goodFrame, true)]
    (by decide) (by decide)

/-- C9: a successful `flow` command frame replaces exactly the addressed slot
of the shared flow list — every other slot is unchanged — and any failure
(parameter parse error, invalid flow number, or flow build error) leaves the
flow list exactly as it was. -/
theorem C9_flow_command_replaces_one_slot
    (cfg : Config) (cmd : String) (flows : List Flow)
    (cfg' : Config) (flows' : List Flow) (res : Option Error)
    (hpre : strStartsWith cmd "flow\x1E" = true)
    (h : process_command cfg cmd flows = (cfg', flows', res)) :
    (res = none → ∃ n f,
      cfg.flow_subcommand (strDrop cmd 5) = .ok (cfg', n)
      ∧ cfg'.create_flow n = .ok f
      ∧ flows' = flows.set n f
      ∧ flows'.length = flows.length
      ∧ (∀ i, i ≠ n → flows'.get? i = flows.get? i)
      ∧ flows'.get? n = some f)
    ∧ (∀ e, res = some e → flows' = flows) := by
  unfold process_command at h
  rw [hpre] at h
  simp only [if_true] at h
  rcases hsub : cfg.flow_subcommand (strDrop cmd 5) with e | ⟨cfg2, n⟩
  · rw [hsub] at h
    dsimp only at h
    injection h with h1 h
    injection h with h2 h3
    subst h1
    subst h2
    subst h3
    exact ⟨fun hres => Option.noConfusion hres, fun e2 _ => rfl⟩
  · rw [hsub] at h
    dsimp only at h
    rcases hget : flows.get? n with _ | oldf
    · rw [hget] at h
      dsimp only at h
      injection h with h1 h
      injection h with h2 h3
      subst h1
      subst h2
      subst h3
      exact ⟨fun hres => Option.noConfusion hres, fun e2 _ => rfl⟩
    · rw [hget] at h
      dsimp only at h
      rcases hcf : cfg2.create_flow n with e | f
      · rw [hcf] at h
        dsimp only at h
        injection h with h1 h
        injection h with h2 h3
        subst h1
        subst h2
        subst h3
        exact ⟨fun hres => Option.noConfusion hres, fun e2 _ => rfl⟩
      · rw [hcf] at h
        dsimp only at h
        injection h with h1 h
        injection h with h2 h3
        subst h1
        subst h2
        subst h3
        have hlt : n < flows.length := by
          by_contra hc
          push_neg at hc
          rw [List.get?_eq_none.mpr hc] at hget
          cases hget
        refine ⟨fun _ => ⟨n, f, rfl, hcf, rfl, List.length_set .., ?_, ?_⟩,
          fun e2 he2 => Option.noConfusion he2⟩
        · intro i hi
          exact List.get?_set_ne f flows (Ne.symm hi)
        · exact List.get?_set_eq_of_lt f hlt

theorem C9_flow_command_replaces_one_slot_witness :
    ∃ n f, cfgDemo.flow_subcommand (strDrop goodFrame 5) = .ok (cfgDemo9, n)
      ∧ cfgDemo9.create_flow n = .ok f
      ∧ flowsDemo9 = flowsDemo.set n f
      ∧ flowsDemo9.length = flowsDemo.length
      ∧ (∀ i, i ≠ n → flowsDemo9.get? i = flowsDemo.get? i)
      ∧ flowsDemo9.get? n = some f :=
  (C9_flow_command_replaces_one_slot cfgDemo goodFrame flowsDemo cfgDemo9
    flowsDemo9 none (by decide) (by decide)).1 rfl

/-- C10: every RTP sink built from a persisted `FlowConfig` (address and port
both set) has `insert_config = true`; consequently the builder assembled by
`Config::create_flow` never satisfies `is_rtp_passthru`, for any
configuration. -/
theorem C10_config_flows_never_passthru :
    (∀ (fc : FlowConfig) (a : String) (p : Nat),
      fc.address = some a → fc.port = some p →
      fc.sink = Sink.RTP a (Int.ofNat p) fc.sink_encoding' true
        ∧ fc.sink.insert_config = true)
    ∧ (∀ (n : Nat) (accel : Acceleration) (fc : FlowConfig),
      (Config.flow_builder n accel fc).is_rtp_passthru = false) := by
  constructor
  · intro fc a p ha hp
    constructor
    · simp [FlowConfig.sink, ha, hp]
    · simp [FlowConfig.sink, ha, hp, Sink.insert_config]
  · intro n accel fc
    simp only [FlowBuilder.is_rtp_passthru, Config.flow_builder]
    rcases ha : fc.address with _ | a <;> rcases hp : fc.port with _ | p <;>
      simp [FlowConfig.sink, ha, hp, Sink.insert_config, Sink.is_rtp]

theorem C10_config_flows_never_passthru_witness :
    (fcDemo.sink
        = Sink.RTP "239.0.0.1" (Int.ofNat 5000) fcDemo.sink_encoding' true
      ∧ fcDemo.sink.insert_config = true)
    ∧ (Config.flow_builder 0 .NONE fcDemo).is_rtp_passthru = false :=
  ⟨C10_config_flows_never_passthru.1 fcDemo "239.0.0.1" 5000 rfl rfl,
    C10_config_flows_never_passthru.2 0 .NONE fcDemo⟩

end Streambed
